import Mathlib

/-!
Verification of the scroll-timeline core of a single-page animated
portfolio site.  The embedded definitions below are translated from the
App component (the scroll-driven state and its derived animation
parameters) and from the `fadeInOut` helper of the UI overlay.

Numbers are modelled as rationals; scroll offsets, viewport heights and
all derived progress values are exact `ℚ` values.  Stateful pieces (the
`exitArmed` flag and the previous scroll offset kept in a ref) are
modelled as an explicit state pair threaded through a step function.
-/

/-- Configuration constant `PARALLAX_SCROLL_HEIGHT_VH = 700`. -/
def PARALLAX_SCROLL_HEIGHT_VH : ℚ := 700

/-- Configuration constant `PARALLAX_DWELL_VH = 220`. -/
def PARALLAX_DWELL_VH : ℚ := 220

/-- Configuration constant `PARALLAX_EXIT_VH = 120`. -/
def PARALLAX_EXIT_VH : ℚ := 120

/-- Configuration constant `EXIT_PROGRESS_THRESHOLD = 0.06`. -/
def EXIT_PROGRESS_THRESHOLD : ℚ := 6 / 100

/-- `easeOutQuart(t) = 1 - (1 - clamp(t,0,1))^4`, with the clamp written as
`Math.max(0, Math.min(1, t))` exactly as in the source. -/
def easeOutQuart (t : ℚ) : ℚ := 1 - (1 - max 0 (min 1 t)) ^ 4

/-- `easeInOutQuart(t)`: clamp `t` to `[0,1]`, then
`x < 0.5 ? 8*x*x*x*x : 1 - (-2x+2)^4 / 2`. -/
def easeInOutQuart (t : ℚ) : ℚ :=
  let x := max 0 (min 1 t)
  if x < 1 / 2 then 8 * x * x * x * x else 1 - (-2 * x + 2) ^ 4 / 2

/-- `maxScroll = (PARALLAX_SCROLL_HEIGHT_VH / 100) * innerHeight - innerHeight`,
as computed inside `updateProgress` (and again at render). -/
def maxScrollPx (h : ℚ) : ℚ := PARALLAX_SCROLL_HEIGHT_VH / 100 * h - h

/-- The normalized progress computed by the scroll handler `updateProgress`:
`maxScroll <= 0 ? 0 : Math.min(1, Math.max(0, y / maxScroll))`. -/
def updateProgress (y h : ℚ) : ℚ :=
  if maxScrollPx h ≤ 0 then 0 else min 1 (max 0 (y / maxScrollPx h))

/-- `tallDivHeightPx = (SCROLL_HEIGHT_VH - 100 + DWELL_VH + EXIT_VH) / 100 * innerHeight`. -/
def tallDivHeightPx (h : ℚ) : ℚ :=
  (PARALLAX_SCROLL_HEIGHT_VH - 100 + PARALLAX_DWELL_VH + PARALLAX_EXIT_VH) / 100 * h

/-- `exitRangePx = (PARALLAX_EXIT_VH / 100) * innerHeight`. -/
def exitRangePx (h : ℚ) : ℚ := PARALLAX_EXIT_VH / 100 * h

/-- `scrollStartTranslatePx = tallDivHeightPx - innerHeight - exitRangePx`. -/
def scrollStartTranslatePx (h : ℚ) : ℚ := tallDivHeightPx h - h - exitRangePx h

/-- `layerTranslateY = scrollStartTranslatePx > 0 && exitArmed && scrollY >
scrollStartTranslatePx ? scrollY - scrollStartTranslatePx : 0`. -/
def layerTranslateY (y h : ℚ) (exitArmed : Bool) : ℚ :=
  if 0 < scrollStartTranslatePx h ∧ exitArmed = true ∧ scrollStartTranslatePx h < y then
    y - scrollStartTranslatePx h
  else 0

/-- `isScrollingUp = scrollY < prevScrollYRef.current`. -/
def isScrollingUp (y prev : ℚ) : Bool := decide (y < prev)

/-- `exitProgressRaw = scrollY > scrollStartTranslatePx ? Math.min(1, Math.max(0,
(scrollY - scrollStartTranslatePx) / Math.max(1, exitRangePx))) : 0`.
Note the denominator guard `Math.max(1, exitRangePx)` and that the value does
not consult the `exitArmed` flag. -/
def exitProgressRaw (y h : ℚ) : ℚ :=
  if scrollStartTranslatePx h < y then
    min 1 (max 0 ((y - scrollStartTranslatePx h) / max 1 (exitRangePx h)))
  else 0

/-- `exitProgress = exitProgressRaw < EXIT_PROGRESS_THRESHOLD ? 0 : exitProgressRaw`. -/
def exitProgress (y h : ℚ) : ℚ :=
  if exitProgressRaw y h < EXIT_PROGRESS_THRESHOLD then 0 else exitProgressRaw y h

/-- `planeExitProgress = isScrollingUp ? 0 : exitProgress`. -/
def planeExitProgress (y prev h : ℚ) : ℚ :=
  if isScrollingUp y prev then 0 else exitProgress y h

/-- `effectiveParallaxProgress = isScrollingUp ? parallaxProgress :
layerTranslateY > 0 ? 1 : parallaxProgress`, where `parallaxProgress =
easeOutQuart(scrollProgress)` and `scrollProgress` is the state last written by
`updateProgress` from the same offset and viewport height. -/
def effectiveParallaxProgress (y prev h : ℚ) (exitArmed : Bool) : ℚ :=
  if isScrollingUp y prev then easeOutQuart (updateProgress y h)
  else if 0 < layerTranslateY y h exitArmed then 1
  else easeOutQuart (updateProgress y h)

/-- The effective-progress selection rule in the spec's words, for the
refinement claim C5: if scrolling upward (offset strictly below the previous
offset) use `easedProgress`; else if `layerTranslateY > 0` pin to `1`;
else `easedProgress`. -/
def effectiveProgressSpec (y prev h : ℚ) (exitArmed : Bool) : ℚ :=
  if y < prev then easeOutQuart (updateProgress y h)
  else if 0 < layerTranslateY y h exitArmed then 1
  else easeOutQuart (updateProgress y h)

/-- `easedLayerTranslateY = exitProgress > 0 ? easeInOutQuart(exitProgress) *
innerHeight : 0`. -/
def easedLayerTranslateY (y h : ℚ) : ℚ :=
  if 0 < exitProgress y h then easeInOutQuart (exitProgress y h) * h else 0

/-- `exitTriggerPx = scrollStartTranslatePx + enterBufferPx` with
`enterBufferPx = innerHeight * 0.2`, from the exit-arming effect. -/
def exitTriggerPx (h : ℚ) : ℚ := scrollStartTranslatePx h + h * (2 / 10)

/-- One run of the exit-arming effect for a new scroll offset `y`, acting on
the state pair `(exitArmed, prevScrollY)`:
`isScrollingDown = scrollY >= prevScrollYRef.current`;
if `isScrollingDown && scrollY >= exitTriggerPx` set armed; else if
`!isScrollingDown && exitProgressRaw <= EXIT_PROGRESS_THRESHOLD` disarm;
finally `prevScrollYRef.current = scrollY`. -/
def armStep (h : ℚ) (s : Bool × ℚ) (y : ℚ) : Bool × ℚ :=
  (if s.2 ≤ y ∧ exitTriggerPx h ≤ y then true
   else if ¬ s.2 ≤ y ∧ exitProgressRaw y h ≤ EXIT_PROGRESS_THRESHOLD then false
   else s.1, y)

/-- The successive values of the `exitArmed` flag produced by feeding a list of
scroll offsets through the arming effect. -/
def armedTrace (h : ℚ) : Bool × ℚ → List ℚ → List Bool
  | _, [] => []
  | s, y :: ys => ((armStep h s y).1) :: armedTrace h (armStep h s y) ys

/-- Number of value changes in a boolean trace, relative to a starting value. -/
def boolChanges : Bool → List Bool → Nat
  | _, [] => 0
  | a, b :: bs => (if a = b then 0 else 1) + boolChanges b bs

/-- The opacity helper of the UI overlay (source parameter names
`start`, `peak`, `end`, `progress`; `end` is a reserved word here, renamed
`endp`): `progress <= start || progress >= end ? 0 : progress < peak ?
(progress - start) / (peak - start) : (end - progress) / (end - peak)`. -/
def fadeInOut (start peak endp progress : ℚ) : ℚ :=
  if progress ≤ start ∨ endp ≤ progress then 0
  else if progress < peak then (progress - start) / (peak - start)
  else (endp - progress) / (endp - peak)

/-! Closed forms of the pixel thresholds, used throughout the proofs. -/

theorem maxScrollPx_eq (h : ℚ) : maxScrollPx h = 6 * h := by
  unfold maxScrollPx PARALLAX_SCROLL_HEIGHT_VH; ring

theorem scrollStartTranslatePx_eq (h : ℚ) : scrollStartTranslatePx h = 36 * h / 5 := by
  unfold scrollStartTranslatePx tallDivHeightPx exitRangePx
  unfold PARALLAX_SCROLL_HEIGHT_VH PARALLAX_DWELL_VH PARALLAX_EXIT_VH; ring

theorem exitRangePx_eq (h : ℚ) : exitRangePx h = 6 * h / 5 := by
  unfold exitRangePx PARALLAX_EXIT_VH; ring

theorem exitTriggerPx_eq (h : ℚ) : exitTriggerPx h = 37 * h / 5 := by
  unfold exitTriggerPx
  rw [scrollStartTranslatePx_eq]; ring

/-! Shared helper lemmas. -/

theorem exitProgressRaw_eq_zero_of_not_past (y h : ℚ) (hle : ¬ scrollStartTranslatePx h < y) :
    exitProgressRaw y h = 0 := by
  unfold exitProgressRaw
  rw [if_neg hle]

theorem exitProgress_pos_past (y h : ℚ) (hx : 0 < exitProgress y h) :
    scrollStartTranslatePx h < y := by
  by_contra hle
  have h0 : exitProgress y h = 0 := by
    unfold exitProgress
    rw [exitProgressRaw_eq_zero_of_not_past y h hle]
    norm_num [EXIT_PROGRESS_THRESHOLD]
  rw [h0] at hx
  exact lt_irrefl 0 hx

theorem easeOutQuart_one_of_past (y h : ℚ) (hh : 0 < h)
    (hy : scrollStartTranslatePx h < y) : easeOutQuart (updateProgress y h) = 1 := by
  have hm : 0 < maxScrollPx h := by rw [maxScrollPx_eq]; linarith
  have hy6 : maxScrollPx h ≤ y := by
    rw [scrollStartTranslatePx_eq] at hy
    rw [maxScrollPx_eq]
    linarith
  have h1 : (1 : ℚ) ≤ y / maxScrollPx h := (one_le_div hm).mpr hy6
  unfold updateProgress
  rw [if_neg (not_le.mpr hm), max_eq_right (le_trans zero_le_one h1), min_eq_left h1]
  norm_num [easeOutQuart]

/-- C4: once `exitProgress` reaches 1 the exit-layer translation
`easedLayerTranslateY` equals the viewport height exactly, and at
`exitProgress = 0` it is exactly 0 — the eased translation lands on the
endpoints with no residual. -/
theorem c4_exit_end_translation (y h : ℚ) :
    (exitProgress y h = 1 → easedLayerTranslateY y h = h) ∧
    (exitProgress y h = 0 → easedLayerTranslateY y h = 0) := by
  constructor
  · intro h1
    unfold easedLayerTranslateY
    rw [h1]
    norm_num [easeInOutQuart]
  · intro h0
    unfold easedLayerTranslateY
    rw [h0]
    norm_num

theorem c4_witness :
    exitProgress 8400 1000 = 1 ∧ easedLayerTranslateY 8400 1000 = 1000 ∧
    exitProgress 0 1000 = 0 ∧ easedLayerTranslateY 0 1000 = 0 := by
  have e1 : exitProgress 8400 1000 = 1 := by
    norm_num [exitProgress, exitProgressRaw, scrollStartTranslatePx_eq, exitRangePx_eq,
      EXIT_PROGRESS_THRESHOLD]
  have e0 : exitProgress 0 1000 = 0 := by
    norm_num [exitProgress, exitProgressRaw, scrollStartTranslatePx_eq, exitRangePx_eq,
      EXIT_PROGRESS_THRESHOLD]
  exact ⟨e1, (c4_exit_end_translation 8400 1000).1 e1, e0, (c4_exit_end_translation 0 1000).2 e0⟩

/-- C5: the effective-progress selection rule as coded agrees with the spec's
rule on every update event: scrolling upward gives `easedProgress`; otherwise
`layerTranslateY > 0` pins to 1, else `easedProgress`. -/
theorem c5_effective_progress_rule (y prev h : ℚ) (armed : Bool) :
    effectiveParallaxProgress y prev h armed = effectiveProgressSpec y prev h armed := by
  by_cases hyp : y < prev <;>
    simp [effectiveParallaxProgress, effectiveProgressSpec, isScrollingUp, hyp]

theorem c5_witness :
    effectiveParallaxProgress 7500 7600 1000 false = effectiveProgressSpec 7500 7600 1000 false :=
  c5_effective_progress_rule 7500 7600 1000 false

/-- C10: on any update event with the offset strictly below the previous
offset (scrolling upward), the exit progress passed to the plane layer is
exactly 0, regardless of absolute position, armed state, or the value of
`exitProgress` itself. -/
theorem c10_plane_exit_zero_on_scroll_up (y prev h : ℚ) (hup : y < prev) :
    planeExitProgress y prev h = 0 := by
  simp [planeExitProgress, isScrollingUp, hup]

theorem c10_witness :
    (7500 : ℚ) < 7600 ∧ planeExitProgress 7500 7600 1000 = 0 ∧
    exitProgress 7500 1000 = 1 / 4 :=
  ⟨by norm_num, c10_plane_exit_zero_on_scroll_up 7500 7600 1000 (by norm_num),
   by norm_num [exitProgress, exitProgressRaw, scrollStartTranslatePx_eq, exitRangePx_eq,
     EXIT_PROGRESS_THRESHOLD]⟩

/-- C7: with a positive scroll range, the normalized progress of
`updateProgress` is 0 for all offsets at or below 0, is 1 for all offsets at
or beyond `maxScrollPx`, and is monotonically non-decreasing in the offset. -/
theorem c7_progress_clamp (h : ℚ) (hm : 0 < maxScrollPx h) :
    (∀ y, y ≤ 0 → updateProgress y h = 0) ∧
    (∀ y, maxScrollPx h ≤ y → updateProgress y h = 1) ∧
    (∀ y₁ y₂, y₁ ≤ y₂ → updateProgress y₁ h ≤ updateProgress y₂ h) := by
  have hnot : ¬ maxScrollPx h ≤ 0 := not_le.mpr hm
  refine ⟨?_, ?_, ?_⟩
  · intro y hy
    unfold updateProgress
    rw [if_neg hnot]
    have hdiv : y / maxScrollPx h ≤ 0 := div_nonpos_iff.mpr (Or.inr ⟨hy, hm.le⟩)
    rw [max_eq_left hdiv, min_eq_right zero_le_one]
  · intro y hy
    unfold updateProgress
    rw [if_neg hnot]
    have h1 : (1 : ℚ) ≤ y / maxScrollPx h := (one_le_div hm).mpr hy
    rw [max_eq_right (le_trans zero_le_one h1), min_eq_left h1]
  · intro y₁ y₂ h12
    unfold updateProgress
    rw [if_neg hnot, if_neg hnot]
    exact min_le_min le_rfl (max_le_max le_rfl ((div_le_div_iff_of_pos_right hm).mpr h12))

theorem c7_witness :
    updateProgress (-5) 1000 = 0 ∧ updateProgress 9000 1000 = 1 ∧
    updateProgress 100 1000 ≤ updateProgress 200 1000 := by
  have hm : 0 < maxScrollPx 1000 := by rw [maxScrollPx_eq]; norm_num
  exact ⟨(c7_progress_clamp 1000 hm).1 (-5) (by norm_num),
    (c7_progress_clamp 1000 hm).2.1 9000 (by rw [maxScrollPx_eq]; norm_num),
    (c7_progress_clamp 1000 hm).2.2 100 200 (by norm_num)⟩

/-- C1 counterexample: at viewport height 1000 the threshold is
`scrollStartTranslatePx = 7200` and the arm trigger is 7400.  A single
downward scroll from 0 to offset 7300 leaves `armed = false` (7300 is below
the trigger), yet the derived `exitProgress` is `1/12 ≠ 0` — the code
derives `exitProgress` from the offset alone and never consults the
hysteresis flag, so the claim "exitProgress is 0 whenever armed is false"
fails on this reachable state. -/
theorem c1_counterexample :
    scrollStartTranslatePx 1000 < 7300 ∧
    armedTrace 1000 (false, 0) [7300] = [false] ∧
    exitProgress 7300 1000 = 1 / 12 ∧ (1 / 12 : ℚ) ≠ 0 := by
  refine ⟨by rw [scrollStartTranslatePx_eq]; norm_num, ?_, ?_, by norm_num⟩
  · norm_num [armedTrace, armStep, exitTriggerPx_eq, exitProgressRaw, scrollStartTranslatePx_eq,
      exitRangePx_eq, EXIT_PROGRESS_THRESHOLD]
  · norm_num [exitProgress, exitProgressRaw, scrollStartTranslatePx_eq, exitRangePx_eq,
      EXIT_PROGRESS_THRESHOLD]

/-- C1 amended: the `armed` hysteresis flag does not gate `exitProgress` at
all — `exitProgress` is a function of the offset alone, nonzero exactly when
the offset is past `scrollStartTranslatePx` and the raw exit progress is at
or above the 0.06 epsilon.  What `armed` gates is `layerTranslateY`: with
`armed = false` the layer translation is always 0. -/
theorem c1_exit_progress_ignores_armed (y h : ℚ) :
    layerTranslateY y h false = 0 ∧
    (exitProgress y h ≠ 0 ↔
      scrollStartTranslatePx h < y ∧ EXIT_PROGRESS_THRESHOLD ≤ exitProgressRaw y h) := by
  constructor
  · simp [layerTranslateY]
  · constructor
    · intro hne
      have hr : EXIT_PROGRESS_THRESHOLD ≤ exitProgressRaw y h := by
        by_contra hlt
        push_neg at hlt
        exact hne (by unfold exitProgress; rw [if_pos hlt])
      refine ⟨?_, hr⟩
      by_contra hle
      rw [exitProgressRaw_eq_zero_of_not_past y h hle] at hr
      norm_num [EXIT_PROGRESS_THRESHOLD] at hr
    · rintro ⟨hy, hr⟩
      unfold exitProgress
      rw [if_neg (not_lt.mpr hr)]
      intro h0
      rw [h0] at hr
      norm_num [EXIT_PROGRESS_THRESHOLD] at hr

theorem c1_witness :
    layerTranslateY 7300 1000 false = 0 ∧ exitProgress 7300 1000 ≠ 0 := by
  refine ⟨(c1_exit_progress_ignores_armed 7300 1000).1,
    (c1_exit_progress_ignores_armed 7300 1000).2.mpr ⟨?_, ?_⟩⟩
  · rw [scrollStartTranslatePx_eq]; norm_num
  · norm_num [exitProgressRaw, scrollStartTranslatePx_eq, exitRangePx_eq,
      EXIT_PROGRESS_THRESHOLD]

/-- C2 counterexample: at viewport height 1000, scroll down from 0 to 7500
(past the arm trigger 7400, so `armed` becomes true) and then back up to
7272, where the raw exit progress is exactly the disarm epsilon
`72/1200 = 0.06`.  The flag disarms (raw ≤ 0.06), but the snap-to-zero test
is strict (`raw < 0.06`), so the resulting `exitProgress` is `0.06`, not 0 —
the round trip described by the claim does not end at exactly 0 on this
boundary trajectory. -/
theorem c2_counterexample :
    exitTriggerPx 1000 ≤ 7500 ∧ (7272 : ℚ) < 7500 ∧
    exitProgressRaw 7272 1000 ≤ EXIT_PROGRESS_THRESHOLD ∧
    armedTrace 1000 (false, 0) [7500, 7272] = [true, false] ∧
    exitProgress 7272 1000 = 6 / 100 ∧ (6 / 100 : ℚ) ≠ 0 := by
  refine ⟨by rw [exitTriggerPx_eq]; norm_num, by norm_num, ?_, ?_, ?_, by norm_num⟩
  · norm_num [exitProgressRaw, scrollStartTranslatePx_eq, exitRangePx_eq,
      EXIT_PROGRESS_THRESHOLD]
  · norm_num [armedTrace, armStep, exitTriggerPx_eq, exitProgressRaw, scrollStartTranslatePx_eq,
      exitRangePx_eq, EXIT_PROGRESS_THRESHOLD]
  · norm_num [exitProgress, exitProgressRaw, scrollStartTranslatePx_eq, exitRangePx_eq,
      EXIT_PROGRESS_THRESHOLD]

/-- C2 amended: a round trip that scrolls back up until the raw exit progress
falls strictly below the 0.06 epsilon ends with `exitProgress` exactly 0 (the
derived value depends only on the final offset, so this holds for every
trajectory ending at such an offset).  At raw progress exactly 0.06 the flag
disarms but `exitProgress` remains 0.06. -/
theorem c2_snap_to_zero_below_epsilon (y h : ℚ)
    (hlt : exitProgressRaw y h < EXIT_PROGRESS_THRESHOLD) :
    exitProgress y h = 0 := by
  unfold exitProgress
  rw [if_pos hlt]

theorem c2_witness :
    exitProgressRaw 7250 1000 < EXIT_PROGRESS_THRESHOLD ∧ exitProgress 7250 1000 = 0 := by
  have hlt : exitProgressRaw 7250 1000 < EXIT_PROGRESS_THRESHOLD := by
    norm_num [exitProgressRaw, scrollStartTranslatePx_eq, exitRangePx_eq,
      EXIT_PROGRESS_THRESHOLD]
  exact ⟨hlt, c2_snap_to_zero_below_epsilon 7250 1000 hlt⟩

/-- C3: whenever `exitProgress` is nonzero (for a positive viewport height and
the fixed constants 700/220/120 baked into the definitions), the effective
progress driving the entry visuals is exactly 1, in every state — scrolling
up or down, armed or not — so the entry and exit drivers are never both
mid-animation. -/
theorem c3_drivers_mutually_exclusive (y prev h : ℚ) (armed : Bool)
    (hh : 0 < h) (hx : 0 < exitProgress y h) :
    effectiveParallaxProgress y prev h armed = 1 := by
  have hp := easeOutQuart_one_of_past y h hh (exitProgress_pos_past y h hx)
  unfold effectiveParallaxProgress
  split_ifs with h1 h2
  · exact hp
  · rfl
  · exact hp

theorem c3_witness :
    (0 : ℚ) < 1000 ∧ (0 : ℚ) < exitProgress 7500 1000 ∧
    effectiveParallaxProgress 7500 7600 1000 false = 1 := by
  have hx : (0 : ℚ) < exitProgress 7500 1000 := by
    norm_num [exitProgress, exitProgressRaw, scrollStartTranslatePx_eq, exitRangePx_eq,
      EXIT_PROGRESS_THRESHOLD]
  exact ⟨by norm_num, hx, c3_drivers_mutually_exclusive 7500 7600 1000 false (by norm_num) hx⟩

/-- C8 counterexample: with viewport height 0 the exit range is `0 ≤ 0`
(degenerate configuration), and at offset 500 the code yields
`exitProgress = 1`, not the neutral 0 the claim requires — the
`Math.max(1, exitRangePx)` guard keeps the division well-defined but does
not make the result 0. -/
theorem c8_counterexample :
    exitRangePx 0 ≤ 0 ∧ exitProgress 500 0 = 1 ∧ (1 : ℚ) ≠ 0 := by
  refine ⟨by rw [exitRangePx_eq]; norm_num, ?_, by norm_num⟩
  norm_num [exitProgress, exitProgressRaw, scrollStartTranslatePx_eq, exitRangePx_eq,
    EXIT_PROGRESS_THRESHOLD]

/-- C8 amended: the division guards hold as guards — `maxScrollPx ≤ 0` forces
the normalized progress to the neutral 0, and the exit-progress denominator is
`max(1, exitRangePx) ≥ 1`, so the raw exit progress is always a well-defined
value clamped to `[0,1]`; but in a degenerate configuration with
`exitRangePx ≤ 0` the exit progress need not be 0. -/
theorem c8_division_guards (y h : ℚ) :
    (maxScrollPx h ≤ 0 → updateProgress y h = 0) ∧
    0 ≤ exitProgressRaw y h ∧ exitProgressRaw y h ≤ 1 ∧
    1 ≤ max 1 (exitRangePx h) := by
  refine ⟨?_, ?_, ?_, le_max_left 1 _⟩
  · intro hm
    unfold updateProgress
    rw [if_pos hm]
  · unfold exitProgressRaw
    split_ifs with hc
    · exact le_min zero_le_one (le_max_left 0 _)
    · exact le_refl 0
  · unfold exitProgressRaw
    split_ifs with hc
    · exact min_le_left 1 _
    · exact zero_le_one

theorem c8_witness :
    updateProgress 500 0 = 0 ∧ 0 ≤ exitProgressRaw 500 0 ∧ exitProgressRaw 500 0 ≤ 1 ∧
    1 ≤ max 1 (exitRangePx 0) :=
  ⟨(c8_division_guards 500 0).1 (by rw [maxScrollPx_eq]; norm_num),
   (c8_division_guards 500 0).2.1, (c8_division_guards 500 0).2.2.1,
   (c8_division_guards 500 0).2.2.2⟩

/-- C9: for every triple `start < peak < end`, the `fadeInOut` opacity is 0
at or below `start` and at or beyond `end`, follows the linear ramp
`(p - start)/(peak - start)` (rising 0 → 1) on `[start, peak]`, attains
exactly 1 at `peak`, and follows the linear ramp `(end - p)/(end - peak)`
(falling 1 → 0) on `[peak, end]`. -/
theorem c9_fade_in_out_shape (s pk e p : ℚ) (hsp : s < pk) (hpe : pk < e) :
    (p ≤ s → fadeInOut s pk e p = 0) ∧
    (e ≤ p → fadeInOut s pk e p = 0) ∧
    (s ≤ p → p ≤ pk → fadeInOut s pk e p = (p - s) / (pk - s)) ∧
    (pk ≤ p → p ≤ e → fadeInOut s pk e p = (e - p) / (e - pk)) ∧
    fadeInOut s pk e pk = 1 := by
  refine ⟨?_, ?_, ?_, ?_, ?_⟩
  · intro hp
    unfold fadeInOut
    rw [if_pos (Or.inl hp)]
  · intro hp
    unfold fadeInOut
    rw [if_pos (Or.inr hp)]
  · intro h1 h2
    unfold fadeInOut
    rcases eq_or_lt_of_le h1 with he | hlt
    · rw [if_pos (Or.inl he.ge), ← he]
      simp
    · have hne : ¬ (p ≤ s ∨ e ≤ p) := by
        push_neg
        exact ⟨hlt, lt_of_le_of_lt h2 hpe⟩
      rw [if_neg hne]
      rcases eq_or_lt_of_le h2 with he2 | hlt2
      · rw [if_neg (by rw [he2]; exact lt_irrefl pk), he2,
          div_self (sub_ne_zero.mpr (ne_of_gt hpe)), div_self (sub_ne_zero.mpr (ne_of_gt hsp))]
      · rw [if_pos hlt2]
  · intro h1 h2
    unfold fadeInOut
    rcases eq_or_lt_of_le h2 with he | hlt
    · rw [if_pos (Or.inr he.ge), he]
      simp
    · have hne : ¬ (p ≤ s ∨ e ≤ p) := by
        push_neg
        exact ⟨lt_of_lt_of_le hsp h1, hlt⟩
      rw [if_neg hne, if_neg (not_lt.mpr h1)]
  · have hne : ¬ (pk ≤ s ∨ e ≤ pk) := by
      push_neg
      exact ⟨hsp, hpe⟩
    unfold fadeInOut
    rw [if_neg hne, if_neg (lt_irrefl pk)]
    exact div_self (sub_ne_zero.mpr (ne_of_gt hpe))

theorem c9_witness :
    fadeInOut (42/100) (58/100) (74/100) (40/100) = 0 ∧
    fadeInOut (42/100) (58/100) (74/100) (80/100) = 0 ∧
    fadeInOut (42/100) (58/100) (74/100) (50/100) = (50/100 - 42/100) / (58/100 - 42/100) ∧
    fadeInOut (42/100) (58/100) (74/100) (66/100) = (74/100 - 66/100) / (74/100 - 58/100) ∧
    fadeInOut (42/100) (58/100) (74/100) (58/100) = 1 :=
  ⟨(c9_fade_in_out_shape (42/100) (58/100) (74/100) (40/100) (by norm_num) (by norm_num)).1
      (by norm_num),
   (c9_fade_in_out_shape (42/100) (58/100) (74/100) (80/100) (by norm_num) (by norm_num)).2.1
      (by norm_num),
   (c9_fade_in_out_shape (42/100) (58/100) (74/100) (50/100) (by norm_num) (by norm_num)).2.2.1
      (by norm_num) (by norm_num),
   (c9_fade_in_out_shape (42/100) (58/100) (74/100) (66/100) (by norm_num) (by norm_num)).2.2.2.1
      (by norm_num) (by norm_num),
   (c9_fade_in_out_shape (42/100) (58/100) (74/100) (58/100) (by norm_num) (by norm_num)).2.2.2.2⟩

/-! Helper lemmas for the jitter claim: both offsets 5px either side of the
arm trigger sit well above the disarm epsilon, so the arming effect can never
disarm while the offset jitters around the trigger. -/

theorem jitter_raw_gt (h y : ℚ) (hh : 40 ≤ h)
    (hy : y = exitTriggerPx h - 5 ∨ y = exitTriggerPx h + 5) :
    EXIT_PROGRESS_THRESHOLD < exitProgressRaw y h := by
  have hs : scrollStartTranslatePx h < y := by
    rcases hy with rfl | rfl <;>
      rw [exitTriggerPx_eq, scrollStartTranslatePx_eq] <;> linarith
  have hmax : max 1 (exitRangePx h) = 6 * h / 5 := by
    rw [exitRangePx_eq]
    exact max_eq_right (by linarith)
  have hpos : (0 : ℚ) < 6 * h / 5 := by linarith
  have hratio : EXIT_PROGRESS_THRESHOLD < (y - scrollStartTranslatePx h) / (6 * h / 5) := by
    rw [lt_div_iff₀ hpos, scrollStartTranslatePx_eq]
    unfold EXIT_PROGRESS_THRESHOLD
    rcases hy with rfl | rfl <;> rw [exitTriggerPx_eq] <;> ring_nf <;> linarith
  unfold exitProgressRaw
  rw [if_pos hs, hmax]
  exact lt_min (by norm_num [EXIT_PROGRESS_THRESHOLD])
    (lt_of_lt_of_le hratio (le_max_right 0 _))

theorem armStep_keeps_armed (h y : ℚ) (hh : 40 ≤ h)
    (hy : y = exitTriggerPx h - 5 ∨ y = exitTriggerPx h + 5) (prev : ℚ) :
    (armStep h (true, prev) y).1 = true := by
  have hraw := jitter_raw_gt h y hh hy
  unfold armStep
  split_ifs with h1 h2
  · rfl
  · exact absurd h2.2 (not_le.mpr hraw)
  · rfl

theorem trace_stays_true (h : ℚ) (hh : 40 ≤ h) :
    ∀ ys : List ℚ, (∀ y ∈ ys, y = exitTriggerPx h - 5 ∨ y = exitTriggerPx h + 5) →
    ∀ prev, boolChanges true (armedTrace h (true, prev) ys) = 0 := by
  intro ys
  induction ys with
  | nil => intro _ _; rfl
  | cons y ys ih =>
    intro hjit prev
    have hy := hjit y (List.mem_cons_self y ys)
    have hstep : armStep h (true, prev) y = (true, y) :=
      Prod.ext_iff.mpr ⟨armStep_keeps_armed h y hh hy prev, rfl⟩
    simp only [armedTrace, hstep, boolChanges, eq_self_iff_true, if_true, Nat.zero_add]
    exact ih (fun z hz => hjit z (List.mem_cons_of_mem y hz)) y

theorem jitter_changes_le_one (h : ℚ) (hh : 40 ≤ h) :
    ∀ ys : List ℚ, (∀ y ∈ ys, y = exitTriggerPx h - 5 ∨ y = exitTriggerPx h + 5) →
    ∀ (a0 : Bool) (p0 : ℚ), boolChanges a0 (armedTrace h (a0, p0) ys) ≤ 1 := by
  intro ys
  induction ys with
  | nil => intro _ a0 p0; exact Nat.zero_le 1
  | cons y ys ih =>
    intro hjit a0 p0
    have hy := hjit y (List.mem_cons_self y ys)
    have hrest : ∀ z ∈ ys, z = exitTriggerPx h - 5 ∨ z = exitTriggerPx h + 5 :=
      fun z hz => hjit z (List.mem_cons_of_mem y hz)
    cases a0 with
    | true =>
      rw [trace_stays_true h hh (y :: ys) hjit p0]
      exact Nat.zero_le 1
    | false =>
      cases hb : (armStep h (false, p0) y).1 with
      | false =>
        have hstep : armStep h (false, p0) y = (false, y) := Prod.ext_iff.mpr ⟨hb, rfl⟩
        simp only [armedTrace, hstep, boolChanges, eq_self_iff_true, if_true, Nat.zero_add]
        exact ih hrest false y
      | true =>
        have hstep : armStep h (false, p0) y = (true, y) := Prod.ext_iff.mpr ⟨hb, rfl⟩
        simp only [armedTrace, hstep, boolChanges]
        rw [trace_stays_true h hh ys hrest y]
        simp

/-- C6: for any sequence of scroll events jittering ±5px around the arm
trigger `scrollStartTranslatePx + 0.2·viewportHeight` (viewport height at
least 40px so that the 5px jitter stays inside the buffer zone), the `armed`
flag changes value at most once over the whole sequence; in particular an
upward move to 5px below the trigger never disarms, because the raw exit
progress there exceeds the 0.06 disarm epsilon. -/
theorem c6_jitter_debounce (h p0 : ℚ) (a0 : Bool) (ys : List ℚ) (hh : 40 ≤ h)
    (hjit : ∀ y ∈ ys, y = exitTriggerPx h - 5 ∨ y = exitTriggerPx h + 5) :
    boolChanges a0 (armedTrace h (a0, p0) ys) ≤ 1 ∧
    ∀ prev, (armStep h (true, prev) (exitTriggerPx h - 5)).1 = true :=
  ⟨jitter_changes_le_one h hh ys hjit a0 p0,
   fun prev => armStep_keeps_armed h (exitTriggerPx h - 5) hh (Or.inl rfl) prev⟩

theorem c6_witness :
    boolChanges false (armedTrace 1000 (false, 0) [7405, 7395, 7405, 7395]) ≤ 1 ∧
    (armStep 1000 (true, 7500) (exitTriggerPx 1000 - 5)).1 = true := by
  have hjit : ∀ y ∈ ([7405, 7395, 7405, 7395] : List ℚ),
      y = exitTriggerPx 1000 - 5 ∨ y = exitTriggerPx 1000 + 5 := by
    intro y hy
    fin_cases hy <;> rw [exitTriggerPx_eq] <;> norm_num
  have H := c6_jitter_debounce 1000 0 false [7405, 7395, 7405, 7395] (by norm_num) hjit
  exact ⟨H.1, H.2 7500⟩

